import Mathlib

/-!
Shallow embedding of the process-supervisor / message-relay core found in
packages/desktop/src-tauri/src/main.rs.

The Rust code performs OS and network effects (spawning a child process,
killing and waiting on it, HTTP GET/POST).  Each effectful operation is
modelled by an explicit environment value holding the result the outside
world would produce, and each Tauri command becomes a pure Lean function
from that environment and the supervisor state to a result, the new state
and an ordered trace of the effect requests it issued.  Mutex locking is
modelled as always succeeding (the sequential embedding has no poisoning);
errors are the literal strings the Rust code builds, with the one
abstraction that the Display form of an HTTP status code is modelled by
its decimal numeral.
-/

namespace Kolosal

/-- A child process handle, as obtained from a successful spawn.  The Rust
type std::process::Child is reduced to the one attribute the code reads:
the process identifier. -/
structure Child where
  id : Nat
deriving Repr, DecidableEq

/-- ServerState from main.rs: the optional child handle and the configured
port, guarded by a mutex in the Rust code. -/
structure ServerState where
  process : Option Child
  port : Nat
deriving Repr, DecidableEq

/-- ServerStatus from main.rs: the value returned by check_server_status. -/
structure ServerStatus where
  running : Bool
  port : Nat
  pid : Option Nat
deriving Repr, DecidableEq

/-- Model of serde_json::Value.  Numbers carry an integer payload; the code
never computes with numeric payloads, it only asks whether a value is a
string or an array, so this payload choice is inessential. -/
inductive Json where
  | null : Json
  | bool (b : Bool) : Json
  | num (n : Int) : Json
  | str (s : String) : Json
  | arr (items : List Json) : Json
  | obj (fields : List (String × Json)) : Json

/-- ToolCall from main.rs. -/
structure ToolCall where
  name : String
  arguments : Json

/-- ChatMessage from main.rs. -/
structure ChatMessage where
  content : String
  tool_calls : Option (List ToolCall)

/-- First-match association lookup, modelling serde_json map access (keys
of a parsed JSON object are unique, so first match is the match). -/
def find_field : List (String × Json) → String → Option Json
  | [], _ => none
  | (k, v) :: rest, key => if k = key then some v else find_field rest key

/-- serde_json::Value::get with a string key: a field of an object, none
on any other value. -/
def Json.get (j : Json) (key : String) : Option Json :=
  match j with
  | .obj fields => find_field fields key
  | _ => none

/-- serde_json::Value::as_str. -/
def Json.as_str : Json → Option String
  | .str s => some s
  | _ => none

/-- serde_json::Value::as_array. -/
def Json.as_array : Json → Option (List Json)
  | .arr items => some items
  | _ => none

/-- reqwest StatusCode::is_success: the status class 200..=299. -/
def status_is_success (code : Nat) : Bool :=
  200 ≤ code && code < 300

/-- An HTTP response to the POST in send_message: its status code and the
result of parsing its body as JSON (error on invalid JSON). -/
structure HttpResponse where
  status : Nat
  body : Except String Json

/-- check_server_health from main.rs.  The environment is the outcome of
the GET against the health endpoint: an error message on any transport
failure or timeout, or the status code of the response.  All failure modes
collapse to false; a total function, it cannot raise. -/
def check_server_health (result : Except String Nat) : Bool :=
  match result with
  | .ok status => status_is_success status
  | .error _ => false

/-- One effect request issued by a lifecycle command, in program order. -/
inductive Event where
  | spawned (pid : Nat) : Event
  | handle_stored : Event
  | slept : Event
  | probed (healthy : Bool) : Event
  | handle_taken : Event
  | kill_attempted (pid : Nat) : Event
  | wait_attempted (pid : Nat) : Event
deriving Repr, DecidableEq

/-- The pids whose kill was requested during a run, in order. -/
def killed_pids (t : List Event) : List Nat :=
  t.filterMap fun e =>
    match e with
    | .kill_attempted p => some p
    | _ => none

/-- Environment of one start_server call: the result of
std::env::current_dir, the parent-directory resolution applied to it, the
spawn outcome in the resolved directory, the outcome of the health GET,
and the result of the kill issued on the unhealthy path (which the code
discards). -/
structure StartEnv where
  current_dir : Except String String
  parent_dir : String → Option String
  spawn : String → Except String Child
  health : Except String Nat
  kill_result : Except String Unit

/-- Result of a start_server call. -/
structure StartResult where
  ret : Except String String
  state : ServerState
  trace : List Event
deriving Repr

/-- start_server from main.rs.  Checks the handle, resolves the parent of
the current directory, spawns npm with the fixed arguments, records the
handle, sleeps, probes health once; on an unhealthy probe it takes the
handle back out and requests a kill whose result it discards. -/
def start_server (env : StartEnv) (s : ServerState) : StartResult :=
  if s.process.isSome then
    ⟨.error "Server is already running", s, []⟩
  else
    match env.current_dir with
    | .error e => ⟨.error ("Failed to get current directory: " ++ e), s, []⟩
    | .ok cwd =>
      match env.parent_dir cwd with
      | none => ⟨.error "Failed to find kolosal-code directory", s, []⟩
      | some kolosal_path =>
        match env.spawn kolosal_path with
        | .error e => ⟨.error ("Failed to start server: " ++ e), s, []⟩
        | .ok child =>
          let pid := child.id
          let s1 : ServerState := { s with process := some child }
          let healthy := check_server_health env.health
          let t0 : List Event := [.spawned pid, .handle_stored, .slept, .probed healthy]
          if healthy then
            ⟨.ok ("Server started successfully (PID: " ++ toString pid ++ ")"), s1, t0⟩
          else
            match s1.process with
            | some process =>
              ⟨.error "Server failed to start properly",
                { s1 with process := none },
                t0 ++ [.handle_taken, .kill_attempted process.id]⟩
            | none =>
              ⟨.error "Server failed to start properly", s1, t0⟩

/-- Environment of one stop_server call: the outcome of process.kill and
of process.wait (the latter is discarded by the code). -/
structure StopEnv where
  kill_result : Except String Unit
  wait_result : Except String Nat

/-- Result of a stop_server call. -/
structure StopResult where
  ret : Except String String
  state : ServerState
  trace : List Event
deriving Repr

/-- stop_server from main.rs.  Takes the handle out of the state, then
kills; on a delivered kill it waits (discarding the wait outcome) and
succeeds, on a failed kill it reports the kill error.  With no handle it
fails without touching the state. -/
def stop_server (env : StopEnv) (s : ServerState) : StopResult :=
  match s.process with
  | some process =>
    let s1 : ServerState := { s with process := none }
    match env.kill_result with
    | .ok _ =>
      ⟨.ok "Server stopped successfully", s1,
        [.handle_taken, .kill_attempted process.id, .wait_attempted process.id]⟩
    | .error e =>
      ⟨.error ("Failed to stop server: " ++ e), s1,
        [.handle_taken, .kill_attempted process.id]⟩
  | none => ⟨.error "Server is not running", s, []⟩

/-- Result of a check_server_status call.  The command only ever reads the
state; the state component records what it leaves behind, and probed
records whether the health GET was issued at all. -/
structure StatusResult where
  ret : Except String ServerStatus
  state : ServerState
  probed : Bool
deriving Repr

/-- check_server_status from main.rs: reads whether a handle is held,
probes health only in that case, and reports the fixed port together with
the pid of the held handle. -/
def check_server_status (health : Except String Nat) (s : ServerState) :
    StatusResult :=
  let has_process := s.process.isSome
  let running := if has_process then check_server_health health else false
  let pid := s.process.map Child.id
  ⟨.ok ⟨running, 38080, pid⟩, s, has_process⟩

/-- Message content extraction in send_message: the top-level output field
as a string, with the fixed placeholder on a missing or non-string value. -/
def extract_content (j : Json) : String :=
  (((j.get "output").bind Json.as_str)).getD "No response"

/-- One iteration of the tool-call loop in send_message: pushes a ToolCall
when the entry has the tool_call type tag, a string name and an arguments
field, and leaves the accumulator unchanged otherwise. -/
def tool_call_step (calls : List ToolCall) (msg : Json) : List ToolCall :=
  match ((msg.get "type").bind Json.as_str) with
  | some t =>
    if t = "tool_call" then
      match ((msg.get "name").bind Json.as_str), msg.get "arguments" with
      | some name, some args => calls ++ [⟨name, args⟩]
      | _, _ => calls
    else calls
  | none => calls

/-- Tool-call extraction in send_message: scans the top-level messages
array with the push loop, and yields the collected calls only when at
least one was found. -/
def extract_tool_calls (j : Json) : Option (List ToolCall) :=
  ((j.get "messages").bind Json.as_array).bind fun items =>
    let calls := items.foldl tool_call_step []
    if !calls.isEmpty then some calls else none

/-- send_message from main.rs.  The environment is the outcome of the POST:
a transport error message, or a response whose status is checked before
the body is parsed and mined for content and tool calls. -/
def send_message (env : Except String HttpResponse) :
    Except String ChatMessage :=
  match env with
  | .error e => .error ("Failed to send request: " ++ e)
  | .ok resp =>
    if !status_is_success resp.status then
      .error ("Server returned error: " ++ toString resp.status)
    else
      match resp.body with
      | .error e => .error ("Failed to parse response: " ++ e)
      | .ok j => .ok ⟨extract_content j, extract_tool_calls j⟩

/-- Per-entry tool-call emission, written from the (amended) claim: an
entry qualifies when its type tag is the fixed tool_call tag, its name
field holds a string and its arguments field is present. -/
def mk_tool_call (msg : Json) : Option ToolCall :=
  match ((msg.get "type").bind Json.as_str) with
  | some t =>
    if t = "tool_call" then
      match ((msg.get "name").bind Json.as_str), msg.get "arguments" with
      | some name, some args => some ⟨name, args⟩
      | _, _ => none
    else none
  | none => none

/-- Tool-call extraction written from the claim wording: select the
qualifying entries of the messages array in order of appearance, and
yield none rather than an empty sequence when none qualify. -/
def tool_calls_spec_amended (j : Json) : Option (List ToolCall) :=
  match ((j.get "messages").bind Json.as_array) with
  | none => none
  | some entries =>
    let qualifying := entries.filterMap mk_tool_call
    if qualifying.isEmpty then none else some qualifying

/-- Qualification as the original claim words it: the type tag matches and
a name field and an arguments field are both present, of any shape. -/
def claim_qualifies (msg : Json) : Bool :=
  (((msg.get "type").bind Json.as_str) == some "tool_call") &&
  (msg.get "name").isSome && (msg.get "arguments").isSome

lemma tool_call_step_eq (calls : List ToolCall) (msg : Json) :
    tool_call_step calls msg = calls ++ (mk_tool_call msg).toList := by
  unfold tool_call_step mk_tool_call
  cases h : ((msg.get "type").bind Json.as_str) with
  | none => simp
  | some t =>
    by_cases ht : t = "tool_call"
    · simp only [ht, if_true]
      cases hn : ((msg.get "name").bind Json.as_str) with
      | none => simp
      | some n =>
        cases ha : msg.get "arguments" with
        | none => simp
        | some a => simp
    · simp [ht]

lemma foldl_tool_call_step (msgs : List Json) (acc : List ToolCall) :
    msgs.foldl tool_call_step acc = acc ++ msgs.filterMap mk_tool_call := by
  induction msgs generalizing acc with
  | nil => simp
  | cons m ms ih =>
    simp only [List.foldl_cons, List.filterMap_cons, ih, tool_call_step_eq]
    cases mk_tool_call m <;> simp

lemma extract_tool_calls_eq_spec (j : Json) :
    extract_tool_calls j = tool_calls_spec_amended j := by
  unfold extract_tool_calls tool_calls_spec_amended
  cases h : ((j.get "messages").bind Json.as_array) with
  | none => rfl
  | some entries =>
    simp only [Option.bind_some, foldl_tool_call_step, List.nil_append]
    cases hq : (entries.filterMap mk_tool_call).isEmpty <;> simp [hq]

/-- C4: if start_server is invoked while a process handle is already held,
it fails with the AlreadyRunning error, issues no effect at all (in
particular no spawn), and leaves the original handle untouched. -/
theorem C4_start_already_running (env : StartEnv) (c : Child) (port : Nat) :
    start_server env ⟨some c, port⟩ =
      ⟨.error "Server is already running", ⟨some c, port⟩, []⟩ := rfl

/-- C3: check_server_status leaves the state untouched, always reports
port 38080, probes health exactly when a handle is held, reports running
exactly when a handle is held and the probe succeeds, and reports the pid
of the handle if and only if one is held, regardless of health. -/
theorem C3_status_read_only (health : Except String Nat) (s : ServerState) :
    (check_server_status health s).state = s ∧
    (check_server_status health s).probed = s.process.isSome ∧
    (check_server_status health s).ret =
      .ok ⟨s.process.isSome && check_server_health health, 38080,
           s.process.map Child.id⟩ ∧
    (s.process.map Child.id).isSome = s.process.isSome := by
  refine ⟨rfl, rfl, ?_, ?_⟩
  · cases hp : s.process <;> simp [check_server_status, hp]
  · cases hp : s.process <;> simp [hp]

/-- C1: starting from an empty state, when the spawn succeeds but the
post-spawn health probe reports unhealthy, start_server fails with the
StartupHealthCheckFailed error, the kill of the freshly spawned process is
requested, the handle is cleared, and a subsequent check_server_status
reports running false with an absent pid. -/
theorem C1_start_unhealthy_teardown (cwd parent : String) (pid port : Nat)
    (kr : Except String Unit) (health health2 : Except String Nat)
    (h : check_server_health health = false) :
    (start_server ⟨.ok cwd, fun _ => some parent, fun _ => .ok ⟨pid⟩, health, kr⟩
        ⟨none, port⟩).ret = .error "Server failed to start properly" ∧
    killed_pids (start_server ⟨.ok cwd, fun _ => some parent,
        fun _ => .ok ⟨pid⟩, health, kr⟩ ⟨none, port⟩).trace = [pid] ∧
    (start_server ⟨.ok cwd, fun _ => some parent, fun _ => .ok ⟨pid⟩, health, kr⟩
        ⟨none, port⟩).state.process = none ∧
    (check_server_status health2
        (start_server ⟨.ok cwd, fun _ => some parent, fun _ => .ok ⟨pid⟩,
          health, kr⟩ ⟨none, port⟩).state).ret =
      .ok ⟨false, 38080, none⟩ := by
  simp [start_server, h, killed_pids, check_server_status]

/-- C1 witness: a concrete unhealthy start. -/
theorem C1_start_unhealthy_teardown_witness :
    check_server_health (.error "connection refused") = false ∧
    (start_server ⟨.ok "/app/desktop", fun _ => some "/app",
        fun _ => .ok ⟨41⟩, .error "connection refused", .ok ()⟩
        ⟨none, 38080⟩).ret = .error "Server failed to start properly" := by
  refine ⟨rfl, ?_⟩
  exact (C1_start_unhealthy_teardown "/app/desktop" "/app" 41 38080 (.ok ())
    (.error "connection refused") (.ok 200) rfl).1

/-- C9: on the failed-health-check path of start_server the handle is
taken out of the state before the kill is attempted (the trace places
handle_taken strictly before kill_attempted), the run is identical for
every outcome of the kill, the handle stays cleared, and the caller
receives the startup-failure error, never a kill error. -/
theorem C9_unhealthy_kill_error_discarded (cwd parent : String)
    (pid port : Nat) (health : Except String Nat)
    (kr kr2 : Except String Unit)
    (h : check_server_health health = false) :
    (start_server ⟨.ok cwd, fun _ => some parent, fun _ => .ok ⟨pid⟩, health, kr⟩
        ⟨none, port⟩).trace =
      [.spawned pid, .handle_stored, .slept, .probed false,
       .handle_taken, .kill_attempted pid] ∧
    (start_server ⟨.ok cwd, fun _ => some parent, fun _ => .ok ⟨pid⟩, health, kr⟩
        ⟨none, port⟩).state.process = none ∧
    (start_server ⟨.ok cwd, fun _ => some parent, fun _ => .ok ⟨pid⟩, health, kr⟩
        ⟨none, port⟩).ret = .error "Server failed to start properly" ∧
    start_server ⟨.ok cwd, fun _ => some parent, fun _ => .ok ⟨pid⟩, health, kr⟩
        ⟨none, port⟩ =
      start_server ⟨.ok cwd, fun _ => some parent, fun _ => .ok ⟨pid⟩, health, kr2⟩
        ⟨none, port⟩ := by
  simp [start_server, h]

/-- C9 witness: a concrete unhealthy start whose kill delivery fails. -/
theorem C9_unhealthy_kill_error_discarded_witness :
    check_server_health (.ok 503) = false ∧
    (start_server ⟨.ok "/home/u/desktop", fun _ => some "/home/u",
        fun _ => .ok ⟨99⟩, .ok 503, .error "no such process"⟩
        ⟨none, 38080⟩).ret = .error "Server failed to start properly" := by
  refine ⟨rfl, ?_⟩
  exact (C9_unhealthy_kill_error_discarded "/home/u/desktop" "/home/u" 99 38080
    (.ok 503) (.error "no such process") (.ok ()) rfl).2.2.1

/-- C2 counterexample: an entry that carries the tool_call tag together
with a name field and an arguments field, the claimed qualification, yet
whose name is not a string; send_message returns an absent tool-calls
result for a response holding exactly this entry, instead of emitting one
ToolCall for it. -/
theorem C2_tool_calls_counterexample :
    claim_qualifies (Json.obj [("type", Json.str "tool_call"),
      ("name", Json.num 3), ("arguments", Json.null)]) = true ∧
    send_message (.ok ⟨200, .ok (Json.obj [("output", Json.str "ok"),
      ("messages", Json.arr [Json.obj [("type", Json.str "tool_call"),
        ("name", Json.num 3), ("arguments", Json.null)]])])⟩) =
      .ok ⟨"ok", none⟩ := ⟨rfl, rfl⟩

/-- C2 (amended): for every parsed body, send_message emits exactly the
entries of the messages array that carry the tool_call tag, a
string-valued name and an arguments field, in order of appearance,
skipping the others, and yields an absent tool-calls result, never an
empty sequence, when no entry qualifies. -/
theorem C2_tool_calls_amended (j : Json) :
    send_message (.ok ⟨200, .ok j⟩) =
      .ok ⟨extract_content j, tool_calls_spec_amended j⟩ ∧
    extract_tool_calls j = tool_calls_spec_amended j := by
  refine ⟨?_, extract_tool_calls_eq_spec j⟩
  simp [send_message, status_is_success, extract_tool_calls_eq_spec j]

/-- C5 counterexample: with a handle held, a delivered kill and a failing
wait, stop_server still reports success; the wait failure is discarded,
not reported to the caller. -/
theorem C5_stop_wait_failure_counterexample :
    (stop_server ⟨.ok (), .error "wait failed"⟩ ⟨some ⟨7⟩, 38080⟩).ret =
      .ok "Server stopped successfully" ∧
    (stop_server ⟨.ok (), .error "wait failed"⟩ ⟨some ⟨7⟩, 38080⟩).trace =
      [.handle_taken, .kill_attempted 7, .wait_attempted 7] := ⟨rfl, rfl⟩

/-- C5 (amended): stop_server fails with NotRunning exactly when no handle
is held, leaving the state unchanged; with a handle held, the handle is
taken out of the state before the kill is attempted and stays cleared
whatever happens next, a failed kill delivery yields the TerminationError,
and a delivered kill yields success with the wait outcome discarded. -/
theorem C5_stop_behaviour :
    (∀ (env : StopEnv) (port : Nat),
      stop_server env ⟨none, port⟩ =
        ⟨.error "Server is not running", ⟨none, port⟩, []⟩) ∧
    (∀ (env : StopEnv) (c : Child) (port : Nat),
      (stop_server env ⟨some c, port⟩).state.process = none ∧
      (stop_server env ⟨some c, port⟩).trace.take 2 =
        [.handle_taken, .kill_attempted c.id] ∧
      (stop_server env ⟨some c, port⟩).ret =
        (match env.kill_result with
         | .ok _ => .ok "Server stopped successfully"
         | .error e => .error ("Failed to stop server: " ++ e))) := by
  refine ⟨fun env port => rfl, fun env c port => ?_⟩
  cases hk : env.kill_result <;> simp [stop_server, hk]

/-- C6: when the parsed body lacks a top-level output field, send_message
succeeds with the fixed placeholder string as content rather than
returning an error. -/
theorem C6_missing_output_placeholder (code : Nat) (j : Json)
    (hs : status_is_success code = true) (ho : j.get "output" = none) :
    send_message (.ok ⟨code, .ok j⟩) =
      .ok ⟨"No response", extract_tool_calls j⟩ := by
  simp [send_message, hs, extract_content, ho]

/-- C6 witness: an empty object body on a 200 response. -/
theorem C6_missing_output_placeholder_witness :
    status_is_success 200 = true ∧ (Json.obj []).get "output" = none ∧
    send_message (.ok ⟨200, .ok (Json.obj [])⟩) = .ok ⟨"No response", none⟩ := by
  refine ⟨rfl, rfl, ?_⟩
  exact (C6_missing_output_placeholder 200 (Json.obj []) rfl rfl).trans rfl

/-- C10: when the top-level output field is present but not a string, the
content falls back to the fixed placeholder, the same as an absent field,
with no error and no coercion of the value. -/
theorem C10_non_string_output_placeholder (code : Nat) (j v : Json)
    (hs : status_is_success code = true) (ho : j.get "output" = some v)
    (hv : Json.as_str v = none) :
    send_message (.ok ⟨code, .ok j⟩) =
      .ok ⟨"No response", extract_tool_calls j⟩ := by
  simp [send_message, hs, extract_content, ho, hv]

/-- C10 witness: a numeric output field on a 200 response. -/
theorem C10_non_string_output_placeholder_witness :
    status_is_success 200 = true ∧
    (Json.obj [("output", Json.num 42)]).get "output" = some (Json.num 42) ∧
    Json.as_str (Json.num 42) = none ∧
    send_message (.ok ⟨200, .ok (Json.obj [("output", Json.num 42)])⟩) =
      .ok ⟨"No response", none⟩ := by
  refine ⟨rfl, rfl, rfl, ?_⟩
  exact (C10_non_string_output_placeholder 200 (Json.obj [("output", Json.num 42)])
    (Json.num 42) rfl rfl rfl).trans rfl

/-- C7: a network failure yields the TransportError message, while a
response with a non-success status yields the ServerError message carrying
the status, whatever the body holds, even an unparseable one; and no
transport-error message ever coincides with a server-error message. -/
theorem C7_transport_and_server_errors :
    (∀ (e : String),
      send_message (.error e) = .error ("Failed to send request: " ++ e)) ∧
    (∀ (status : Nat) (body : Except String Json),
      status_is_success status = false →
      send_message (.ok ⟨status, body⟩) =
        .error ("Server returned error: " ++ toString status)) ∧
    (∀ (e : String) (status : Nat),
      ("Failed to send request: " ++ e) ≠
        ("Server returned error: " ++ toString status)) := by
  refine ⟨fun e => rfl, fun status body hs => ?_, fun e status h => ?_⟩
  · simp [send_message, hs]
  · have h2 : ("Failed to send request: " ++ e).data.head? =
        ("Server returned error: " ++ toString status).data.head? :=
      congrArg (fun s => s.data.head?) h
    have hF : (("Failed to send request: " ++ e)).data.head? = some 'F' := rfl
    have hS : (("Server returned error: " ++ toString status)).data.head? =
      some 'S' := rfl
    rw [hF, hS] at h2
    exact absurd h2 (by decide)

/-- C7 witness: an HTTP 500 with an unparseable body yields the
ServerError message for 500, the body untouched. -/
theorem C7_transport_and_server_errors_witness :
    status_is_success 500 = false ∧
    send_message (.ok ⟨500, .error "unparseable"⟩) =
      .error "Server returned error: 500" := by
  refine ⟨rfl, ?_⟩
  exact (C7_transport_and_server_errors.2.1 500 (.error "unparseable") rfl).trans rfl

/-- C8: check_server_health is a total boolean: every transport failure or
timeout yields false, every non-success status yields false, and it is
true exactly when the GET produced a response with a success status. -/
theorem C8_health_boolean :
    (∀ (e : String), check_server_health (.error e) = false) ∧
    (∀ (code : Nat), status_is_success code = false →
      check_server_health (.ok code) = false) ∧
    (∀ (r : Except String Nat), check_server_health r = true ↔
      ∃ code, r = .ok code ∧ 200 ≤ code ∧ code < 300) := by
  refine ⟨fun e => rfl, fun code hc => hc, fun r => ?_⟩
  cases r with
  | error e => simp [check_server_health]
  | ok code => simp [check_server_health, status_is_success]

/-- C8 witness: a 503 status collapses to false. -/
theorem C8_health_boolean_witness :
    status_is_success 503 = false ∧ check_server_health (.ok 503) = false :=
  ⟨rfl, C8_health_boolean.2.1 503 rfl⟩

end Kolosal
